import Mathlib

/-!
Verification of the Ledger & CPM Reconciliation Engine of the
`gestao-cpm-agno` repository, as implemented in `app/tools/db_toolkit.py`
(class `DatabaseManager`).

Modelling conventions (shallow embedding):
* Python floats holding money / CPM / percentages are modelled as exact
  rationals (`ℚ`); mile quantities (Python `int`) as `ℤ`.
* Python `int(x)` truncates toward zero: modelled by `pyInt`.
* Python `round(x)` / `round(x, 2)` use round-half-to-even: modelled by
  `pyRound` / `pyRound2`.
* The relational store is a `MilesDB` record of row lists.  Row ids and
  `created_at` timestamps are drawn from a single logical clock `clock`
  (each insert stamps the current clock and increments it), which models
  the monotone `created_at` ordering the code relies on (`ORDER BY
  created_at DESC LIMIT 1`).
* Identifier resolution (`_get_account_id` / `_get_program_id`) is a pure
  read; operations below receive already-resolved ids, as the claims under
  study all concern post-resolution behaviour.
* psycopg commit/rollback semantics: each tool runs inside one pooled
  connection block; an exception raised mid-sequence rolls the whole
  transaction back (`pool.connection()` context manager), which is
  modelled by returning the *original* state from failing branches.
* `MENSAL` period references (`'YYYY-MM'` strings parsed by
  `map(int, periodo.split('-'))`) are modelled already parsed as
  `(ano, mes) : ℤ × ℤ` pairs.
-/

namespace GestaoCPM

/-- Python `int(x)` on a real value: truncation toward zero. -/
def pyInt (q : ℚ) : ℤ := if 0 ≤ q then ⌊q⌋ else ⌈q⌉

/-- Python `round(x)` (no digits): round half to even, to an integer. -/
def pyRound (q : ℚ) : ℤ :=
  let f := ⌊q⌋
  let r := q - (f : ℚ)
  if r < 1 / 2 then f
  else if 1 / 2 < r then f + 1
  else if f % 2 = 0 then f else f + 1

/-- Python `round(x, 2)`: round half to even at two decimal places. -/
def pyRound2 (q : ℚ) : ℚ := (pyRound (q * 100) : ℚ) / 100

theorem pyInt_of_nonneg {q : ℚ} (h : 0 ≤ q) : pyInt q = ⌊q⌋ := by
  simp [pyInt, h]

theorem pyInt_intCast (n : ℤ) : pyInt (n : ℚ) = n := by
  rcases le_or_lt 0 (n : ℚ) with h | h
  · simp [pyInt, h]
  · simp [pyInt, not_le.mpr h, Int.ceil_intCast]

/-- Acquisition modes (`app/core/enums.py`, `ModoAquisicao`). -/
inductive ModoAquisicao where
  | COMPRA_SIMPLES
  | ORGANICO
  | TRANSFERENCIA
  | CLUBE
  | AJUSTE_CPM
deriving DecidableEq, Repr

/-- Batch kinds (`app/core/enums.py`, `TipoLote`). -/
inductive TipoLote where
  | ORGANICO
  | PAGO
deriving DecidableEq, Repr

/-- Checkpoint kinds stored in `cpm_checkpoints.tipo`. -/
inductive ChkTipo where
  | MENSAL
  | MANUAL
  | AUTO
deriving DecidableEq, Repr

/-- A row of the `transactions` table (the columns the claims touch). -/
structure Transaction where
  id : ℕ
  accountId : ℕ
  createdAt : ℕ
  modoAquisicao : ModoAquisicao
  origemId : Option ℕ
  destinoId : Option ℕ
  companhiaRefId : ℕ
  milhasBase : ℤ
  bonusPercent : ℚ
  milhasCreditadas : ℤ
  custoTotal : ℚ
  cpmReal : ℚ
  subscriptionId : Option ℕ
deriving DecidableEq, Repr

/-- A row of the `transaction_batches` table. -/
structure TransactionBatch where
  transactionId : ℕ
  tipo : TipoLote
  milhasQtd : ℤ
  cpmOrigem : ℚ
  custoParcial : ℚ
  ordem : ℕ
deriving DecidableEq, Repr

/-- A row of the `subscriptions` table.  `cpmFixo` is the generated column
`cpm_fixo = valor_total_ciclo / milhas_garantidas_ciclo * 1000`, computed
at insert time and never recomputed. -/
structure Subscription where
  id : ℕ
  accountId : ℕ
  programaId : ℕ
  valorTotalCiclo : ℚ
  milhasGarantidasCiclo : ℤ
  cpmFixo : ℚ
  ativo : Bool
  dataFim : Option ℕ
  createdAt : ℕ
deriving DecidableEq, Repr

/-- A row of the `cpm_checkpoints` table. -/
structure CpmCheckpoint where
  id : ℕ
  accountId : ℕ
  programaId : ℕ
  totalMilhas : ℤ
  totalCusto : ℚ
  cpmSnapshot : ℚ
  tipo : ChkTipo
  periodoReferencia : Option (ℤ × ℤ)
  createdAt : ℕ
deriving DecidableEq, Repr

/-- The relational store: the four tables the engine mutates, plus the
logical clock used for fresh ids and `created_at` stamps. -/
structure MilesDB where
  transactions : List Transaction
  batches : List TransactionBatch
  subscriptions : List Subscription
  checkpoints : List CpmCheckpoint
  clock : ℕ
deriving DecidableEq, Repr

/-- The empty store. -/
def emptyDB : MilesDB := ⟨[], [], [], [], 0⟩

/-- Credited-mile computation shared by the recorder tools:
`int(milhas_base * (1 + bonus_percent / 100))`. -/
def creditedFromBase (base : ℤ) (bonus : ℚ) : ℤ :=
  pyInt ((base : ℚ) * (1 + bonus / 100))

/-- Outcome of `save_simple_transaction` (after identifier resolution). -/
inductive SimpleResult where
  | ok (creditadas : ℤ) (cpm : ℚ)
deriving DecidableEq, Repr

/-- `save_simple_transaction` (db_toolkit.py, lines 348-424): records a
simple purchase or an organic entry.  Mode is `ORGANICO` with stored cost
`0.0` when `custo_total <= 0`, else `COMPRA_SIMPLES` with the given cost;
`milhas_creditadas = int(milhas * (1 + bonus/100))`;
`cpm_real = custo_final / total_milhas * 1000` when `total_milhas > 0`,
else `0`. -/
def save_simple_transaction (s : MilesDB) (accId progId : ℕ)
    (milhas : ℤ) (custo_total : ℚ) (bonus_percent : ℚ) :
    SimpleResult × MilesDB :=
  let milhas_base := milhas
  let bonus := bonus_percent
  let total_milhas := creditedFromBase milhas_base bonus
  let modo := if custo_total ≤ 0 then ModoAquisicao.ORGANICO
              else ModoAquisicao.COMPRA_SIMPLES
  let custo_final := if custo_total ≤ 0 then (0 : ℚ) else custo_total
  let cpm_real := if 0 < total_milhas then custo_final / (total_milhas : ℚ) * 1000 else 0
  let tx : Transaction :=
    { id := s.clock, accountId := accId, createdAt := s.clock,
      modoAquisicao := modo,
      origemId := some progId, destinoId := some progId, companhiaRefId := progId,
      milhasBase := milhas_base, bonusPercent := bonus,
      milhasCreditadas := total_milhas, custoTotal := custo_final,
      cpmReal := cpm_real, subscriptionId := none }
  (.ok total_milhas cpm_real,
   { s with transactions := s.transactions ++ [tx], clock := s.clock + 1 })

/-- Outcome of `save_complex_transfer` (after identifier resolution). -/
inductive TransferResult where
  | errMilhasBase
  | errBonusNegativo
  | errLoteNegativo
  | errSomaLotes
  | ok (creditadas : ℤ) (cpm : ℚ)
deriving DecidableEq, Repr

/-- Whether a `TransferResult` is one of the four validation errors. -/
def TransferResult.isValidationError : TransferResult → Bool
  | .errMilhasBase => true
  | .errBonusNegativo => true
  | .errLoteNegativo => true
  | .errSomaLotes => true
  | .ok _ _ => false

/-- `save_complex_transfer` (db_toolkit.py, lines 427-521): records a
bonus-bearing transfer built from an organic and a paid lot.  Input
validations (in source order) run before any insert; on success one
transaction row plus one batch row per non-zero lot are written. -/
def save_complex_transfer (s : MilesDB) (accId origId destId : ℕ)
    (milhas_base : ℤ) (bonus_percent : ℚ)
    (lote_organico_qtd : ℤ) (lote_organico_cpm : ℚ)
    (lote_pago_qtd : ℤ) (lote_pago_custo_total : ℚ) :
    TransferResult × MilesDB :=
  if milhas_base ≤ 0 then (.errMilhasBase, s)
  else if bonus_percent < 0 then (.errBonusNegativo, s)
  else if lote_organico_qtd < 0 ∨ lote_pago_qtd < 0 then (.errLoteNegativo, s)
  else if lote_organico_qtd + lote_pago_qtd ≠ milhas_base then (.errSomaLotes, s)
  else
    let custo_organico := ((lote_organico_qtd : ℚ) / 1000) * lote_organico_cpm
    let custo_total := custo_organico + lote_pago_custo_total
    let milhas_creditadas := creditedFromBase milhas_base bonus_percent
    let cpm_real := if 0 < milhas_creditadas then custo_total / (milhas_creditadas : ℚ) * 1000 else 0
    let tx : Transaction :=
      { id := s.clock, accountId := accId, createdAt := s.clock,
        modoAquisicao := ModoAquisicao.TRANSFERENCIA,
        origemId := some origId, destinoId := some destId, companhiaRefId := destId,
        milhasBase := milhas_base, bonusPercent := bonus_percent,
        milhasCreditadas := milhas_creditadas, custoTotal := custo_total,
        cpmReal := cpm_real, subscriptionId := none }
    let loteOrg : List TransactionBatch :=
      if 0 < lote_organico_qtd then
        [{ transactionId := tx.id, tipo := TipoLote.ORGANICO,
           milhasQtd := lote_organico_qtd, cpmOrigem := lote_organico_cpm,
           custoParcial := custo_organico, ordem := 1 }]
      else []
    let lotePago : List TransactionBatch :=
      if 0 < lote_pago_qtd then
        [{ transactionId := tx.id, tipo := TipoLote.PAGO,
           milhasQtd := lote_pago_qtd,
           cpmOrigem := lote_pago_custo_total / (lote_pago_qtd : ℚ) * 1000,
           custoParcial := lote_pago_custo_total, ordem := 2 }]
      else []
    (.ok milhas_creditadas cpm_real,
     { s with transactions := s.transactions ++ [tx],
              batches := s.batches ++ loteOrg ++ lotePago,
              clock := s.clock + 1 })

/-- The `ORDER BY created_at DESC LIMIT 1` lookup of the active
subscription for an account/program pair, used by `process_monthly_credit`
(with `FOR UPDATE`), `register_intra_club_transaction`, and the
deactivation subquery of `correct_last_subscription`. -/
def findActiveSubscription (s : MilesDB) (accId progId : ℕ) : Option Subscription :=
  (s.subscriptions.filter
    (fun x => x.accountId == accId && x.programaId == progId && x.ativo)).argmax
    (·.createdAt)

/-- Sum of `milhas_creditadas` over the transactions linked to a
subscription id (`SELECT COALESCE(SUM(milhas_creditadas), 0) FROM
transactions WHERE subscription_id = %s`). -/
def sumCredited (s : MilesDB) (subId : ℕ) : ℤ :=
  ((s.transactions.filter (fun t => t.subscriptionId == some subId)).map
    (·.milhasCreditadas)).sum

/-- The amount `process_monthly_credit` tries to credit:
the supplied value when strictly positive, otherwise the linear default
`int(milhas_garantidas_ciclo / 12)`. -/
def requestedAmount (sub : Subscription) (milhas_do_mes : ℤ) : ℤ :=
  if 0 < milhas_do_mes then milhas_do_mes
  else pyInt ((sub.milhasGarantidasCiclo : ℚ) / 12)

/-- Outcome of `process_monthly_credit` (after identifier resolution).
`credited` carries the amount and whether it was manual (supplied) or the
linear default. -/
inductive CreditResult where
  | noActiveSubscription
  | blocked (requested saldoRestante contrato jaCreditado : ℤ)
  | credited (qtd : ℤ) (manual : Bool)
deriving DecidableEq, Repr

/-- `process_monthly_credit` (db_toolkit.py, lines 920-1030): locks the
active subscription row, computes the requested amount (supplied when
`> 0`, else `int(contract/12)`), sums the miles already credited against
the subscription, and blocks with no write when
`qtd_inserir > saldo_restante`; otherwise writes one `CLUBE` transaction
with `custo = qtd/1000 * cpm_fixo` and `cpm_real = cpm_fixo`. -/
def process_monthly_credit (s : MilesDB) (accId progId : ℕ)
    (milhas_do_mes : ℤ) : CreditResult × MilesDB :=
  match findActiveSubscription s accId progId with
  | none => (.noActiveSubscription, s)
  | some sub =>
    let qtd_inserir := requestedAmount sub milhas_do_mes
    let manual := decide (0 < milhas_do_mes)
    let total_ja_creditado := sumCredited s sub.id
    let saldo_restante := sub.milhasGarantidasCiclo - total_ja_creditado
    if saldo_restante < qtd_inserir then
      (.blocked qtd_inserir saldo_restante sub.milhasGarantidasCiclo total_ja_creditado, s)
    else
      let custo_contabil := ((qtd_inserir : ℚ) / 1000) * sub.cpmFixo
      let tx : Transaction :=
        { id := s.clock, accountId := accId, createdAt := s.clock,
          modoAquisicao := ModoAquisicao.CLUBE,
          origemId := some progId, destinoId := some progId, companhiaRefId := progId,
          milhasBase := qtd_inserir, bonusPercent := 0,
          milhasCreditadas := qtd_inserir, custoTotal := custo_contabil,
          cpmReal := sub.cpmFixo, subscriptionId := some sub.id }
      (.credited qtd_inserir manual,
       { s with transactions := s.transactions ++ [tx], clock := s.clock + 1 })

/-- Outcome of `register_intra_club_transaction`. -/
inductive IntraClubResult where
  | noActiveClub
  | ok (creditadas : ℤ) (cpm : ℚ)
deriving DecidableEq, Repr

/-- `register_intra_club_transaction` (db_toolkit.py, lines 1034-1121):
an ad-hoc transaction linked to the active subscription; fails when no
active subscription exists; mode depends on the cost sign as in
`save_simple_transaction`. -/
def register_intra_club_transaction (s : MilesDB) (accId progId : ℕ)
    (milhas : ℤ) (custo_total : ℚ) (bonus_percent : ℚ) :
    IntraClubResult × MilesDB :=
  let milhas_base := milhas
  let bonus := bonus_percent
  let total_milhas := creditedFromBase milhas_base bonus
  let modo := if custo_total ≤ 0 then ModoAquisicao.ORGANICO
              else ModoAquisicao.COMPRA_SIMPLES
  let custo_final := if custo_total ≤ 0 then (0 : ℚ) else custo_total
  match findActiveSubscription s accId progId with
  | none => (.noActiveClub, s)
  | some sub =>
    let cpm_transacao := if 0 < total_milhas then custo_final / (total_milhas : ℚ) * 1000 else 0
    let tx : Transaction :=
      { id := s.clock, accountId := accId, createdAt := s.clock,
        modoAquisicao := modo,
        origemId := some progId, destinoId := some progId, companhiaRefId := progId,
        milhasBase := milhas_base, bonusPercent := bonus,
        milhasCreditadas := total_milhas, custoTotal := custo_final,
        cpmReal := cpm_transacao, subscriptionId := some sub.id }
    (.ok total_milhas cpm_transacao,
     { s with transactions := s.transactions ++ [tx], clock := s.clock + 1 })

/-- Outcome of `correct_last_subscription`. -/
inductive CorrectResult where
  | ok (newSubId : ℕ)
  | storeFailure
deriving DecidableEq, Repr

/-- `correct_last_subscription` (db_toolkit.py, lines 639-745): in one
database transaction (single commit at the end of the block), (1)
soft-deactivates the most recent active subscription of the pair by
setting `data_fim` (the `trg_maintain_consistency` trigger clears
`ativo`), (2) inserts the corrected subscription, (3) re-links the old
subscription's transactions to the new id.  `insertFails` models the
INSERT of step (2) raising a store exception, in which case the pooled
connection context manager rolls the whole transaction back
(`psycopg_pool` rolls back on exception before the final commit), so the
caller observes the original state. -/
def correct_last_subscription (s : MilesDB) (accId progId : ℕ)
    (valor_contrato : ℚ) (milhas_contrato : ℤ) (insertFails : Bool) :
    CorrectResult × MilesDB :=
  let oldSub := findActiveSubscription s accId progId
  let deactivate := fun (o : Subscription) (x : Subscription) =>
    if x.id == o.id then { x with ativo := false, dataFim := some s.clock } else x
  let s1 := match oldSub with
    | some o => { s with subscriptions := s.subscriptions.map (deactivate o) }
    | none => s
  if insertFails then (.storeFailure, s)
  else
    let newSub : Subscription :=
      { id := s.clock, accountId := accId, programaId := progId,
        valorTotalCiclo := valor_contrato, milhasGarantidasCiclo := milhas_contrato,
        cpmFixo := valor_contrato / (milhas_contrato : ℚ) * 1000,
        ativo := true, dataFim := none, createdAt := s.clock }
    let s2 := { s1 with subscriptions := s1.subscriptions ++ [newSub] }
    let relink := fun (o : Subscription) (t : Transaction) =>
      if t.subscriptionId == some o.id then { t with subscriptionId := some newSub.id } else t
    let s3 := match oldSub with
      | some o =>
        { s2 with transactions := s2.transactions.map (relink o), clock := s.clock + 1 }
      | none => { s2 with clock := s.clock + 1 }
    (.ok newSub.id, s3)

/-- Whether a transaction belongs to an account/program pair
(`account_id = %s AND companhia_referencia_id = %s`). -/
def pairTx (accId progId : ℕ) (t : Transaction) : Bool :=
  t.accountId == accId && t.companhiaRefId == progId

/-- The most recent checkpoint of a pair (`ORDER BY created_at DESC
LIMIT 1` on `cpm_checkpoints`). -/
def latestCheckpoint (s : MilesDB) (accId progId : ℕ) : Option CpmCheckpoint :=
  (s.checkpoints.filter (fun c => c.accountId == accId && c.programaId == progId)).argmax
    (·.createdAt)

/-- The delta window: the pair's transactions created strictly after the
cutoff when one is given (`AND created_at > %s`), or all of the pair's
transactions otherwise (the source issues the corresponding two SQL
queries). -/
def deltaTxs (s : MilesDB) (accId progId : ℕ) (cutoff : Option ℕ) : List Transaction :=
  match cutoff with
  | some c =>
    s.transactions.filter (fun t => pairTx accId progId t && decide (c < t.createdAt))
  | none => s.transactions.filter (pairTx accId progId)

/-- The aggregates returned by `_get_cpm_totals`. -/
structure CpmTotals where
  totalMilhas : ℤ
  totalCusto : ℚ
  checkpoint : Option CpmCheckpoint
  deltaCount : ℕ
  deltaMilhas : ℤ
  deltaCusto : ℚ
deriving DecidableEq, Repr

/-- `_get_cpm_totals` (db_toolkit.py, lines 1125-1191): base + delta.
Finds the pair's most recent checkpoint; sums miles/cost of the
transactions created after it (all transactions when there is none);
returns checkpoint base plus delta. -/
def get_cpm_totals (s : MilesDB) (accId progId : ℕ) : CpmTotals :=
  let chk := latestCheckpoint s accId progId
  let txs := deltaTxs s accId progId (chk.map (·.createdAt))
  let deltaMilhas := (txs.map (·.milhasCreditadas)).sum
  let deltaCusto := (txs.map (·.custoTotal)).sum
  let baseMilhas := (chk.map (·.totalMilhas)).getD 0
  let baseCusto := (chk.map (·.totalCusto)).getD 0
  { totalMilhas := baseMilhas + deltaMilhas, totalCusto := baseCusto + deltaCusto,
    checkpoint := chk, deltaCount := txs.length,
    deltaMilhas := deltaMilhas, deltaCusto := deltaCusto }

/-- Total miles of a pair summed over its whole transaction history. -/
def fullMilhas (s : MilesDB) (accId progId : ℕ) : ℤ :=
  ((s.transactions.filter (pairTx accId progId)).map (·.milhasCreditadas)).sum

/-- Total cost of a pair summed over its whole transaction history. -/
def fullCusto (s : MilesDB) (accId progId : ℕ) : ℚ :=
  ((s.transactions.filter (pairTx accId progId)).map (·.custoTotal)).sum

/-- A checkpoint is coherent with the store when its stored totals equal
the sums over the pair's transactions created up to (and including) the
checkpoint's creation instant — the defining property of a snapshot in
the data model. -/
def checkpointCoherent (s : MilesDB) (c : CpmCheckpoint) : Prop :=
  c.totalMilhas =
    ((s.transactions.filter
      (fun t => pairTx c.accountId c.programaId t && decide (t.createdAt ≤ c.createdAt))).map
      (·.milhasCreditadas)).sum ∧
  c.totalCusto =
    ((s.transactions.filter
      (fun t => pairTx c.accountId c.programaId t && decide (t.createdAt ≤ c.createdAt))).map
      (·.custoTotal)).sum

instance (s : MilesDB) (c : CpmCheckpoint) : Decidable (checkpointCoherent s c) := by
  unfold checkpointCoherent; infer_instance

/-- Outcome of `confirm_cpm_checkpoint` (after identifier resolution). -/
inductive ChkResult where
  | errPeriodoObrigatorio
  | errPeriodoInvalido
  | errMesFuturo
  | errJaFechado
  | errSemTransacoes
  | ok (totalMilhas : ℤ) (totalCusto : ℚ)
deriving DecidableEq, Repr

/-- Whether a MENSAL checkpoint already exists for the same
account/program/period (`SELECT id FROM cpm_checkpoints WHERE account_id
= %s AND programa_id = %s AND periodo_referencia = %s`). -/
def hasPeriodCheckpoint (s : MilesDB) (accId progId : ℕ) (p : ℤ × ℤ) : Bool :=
  s.checkpoints.any
    (fun c => c.accountId == accId && c.programaId == progId && c.periodoReferencia == some p)

/-- Shared tail of `confirm_cpm_checkpoint`: compute totals, fail when
`total_milhas <= 0`, otherwise insert the checkpoint row (snapshot CPM
`round(total_custo / total_milhas * 1000, 2)`). -/
def confirmCheckpointCore (s : MilesDB) (accId progId : ℕ) (tipo : ChkTipo)
    (periodo : Option (ℤ × ℤ)) : ChkResult × MilesDB :=
  let tot := get_cpm_totals s accId progId
  if tot.totalMilhas ≤ 0 then (.errSemTransacoes, s)
  else
    let chk : CpmCheckpoint :=
      { id := s.clock, accountId := accId, programaId := progId,
        totalMilhas := tot.totalMilhas, totalCusto := tot.totalCusto,
        cpmSnapshot := pyRound2 (tot.totalCusto / (tot.totalMilhas : ℚ) * 1000),
        tipo := tipo, periodoReferencia := periodo, createdAt := s.clock }
    (.ok tot.totalMilhas tot.totalCusto,
     { s with checkpoints := s.checkpoints ++ [chk], clock := s.clock + 1 })

/-- `confirm_cpm_checkpoint` (db_toolkit.py, lines 1250-1342) for the two
public kinds.  For MENSAL: the period reference is mandatory, the month
must be in `1..12`, the period must not be in the future (Python tuple
comparison `(ano, mes) > (hoje.year, hoje.month)`), and no checkpoint may
already exist for the same account/program/period (duplicate blocks with
no write).  `today` is the `(year, month)` of `date.today()`. -/
def confirm_cpm_checkpoint (s : MilesDB) (accId progId : ℕ) (tipo : ChkTipo)
    (periodo : Option (ℤ × ℤ)) (today : ℤ × ℤ) : ChkResult × MilesDB :=
  match tipo with
  | .MENSAL =>
    match periodo with
    | none => (.errPeriodoObrigatorio, s)
    | some (ano, mes) =>
      if ¬(1 ≤ mes ∧ mes ≤ 12) then (.errPeriodoInvalido, s)
      else if today.1 < ano ∨ (ano = today.1 ∧ today.2 < mes) then (.errMesFuturo, s)
      else if hasPeriodCheckpoint s accId progId (ano, mes) then (.errJaFechado, s)
      else confirmCheckpointCore s accId progId .MENSAL (some (ano, mes))
  | _ => confirmCheckpointCore s accId progId tipo periodo

/-- Outcome of `calculate_cpm_adjustment` (after identifier resolution).
`options` carries the rounded current CPM, Option A's cost delta, and
Option B's mile delta when offered.  `zeroDivisionError` models the
Python `ZeroDivisionError` raised by `total_custo / cpm_alvo` when the
Option B branch is reached with `cpm_alvo = 0` (caught by the outer
handler and reported as a sanitized internal error). -/
inductive AdjustCalcResult where
  | semTransacoes
  | noAdjustNeeded (cpmAtual : ℚ)
  | options (cpmAtual : ℚ) (deltaCusto : ℚ) (deltaMilhas : Option ℤ)
  | zeroDivisionError
deriving DecidableEq, Repr

/-- The `cpm_atual` local of `calculate_cpm_adjustment`:
`round(total_custo / total_milhas * 1000, 2)`. -/
def cpmAtualOf (s : MilesDB) (accId progId : ℕ) : ℚ :=
  pyRound2 ((get_cpm_totals s accId progId).totalCusto /
    ((get_cpm_totals s accId progId).totalMilhas : ℚ) * 1000)

/-- `calculate_cpm_adjustment` (db_toolkit.py, lines 1407-1464): pure
computation, no write.  `cpm_atual = round(custo/milhas*1000, 2)`;
"no adjustment needed" when `|cpm_atual - cpm_alvo| < 0.01`; otherwise
Option A `delta_custo = round(cpm_alvo*milhas/1000 - custo, 2)` always,
and Option B `delta_milhas = round(custo/cpm_alvo*1000 - milhas)` exactly
when `cpm_alvo < cpm_atual` (division raising at `cpm_alvo = 0`). -/
def calculate_cpm_adjustment (s : MilesDB) (accId progId : ℕ) (cpm_alvo : ℚ) :
    AdjustCalcResult × MilesDB :=
  let tot := get_cpm_totals s accId progId
  if tot.totalMilhas ≤ 0 then (.semTransacoes, s)
  else
    let cpm_atual := cpmAtualOf s accId progId
    if |cpm_atual - cpm_alvo| < 1 / 100 then (.noAdjustNeeded cpm_atual, s)
    else
      let delta_custo := pyRound2 (cpm_alvo * (tot.totalMilhas : ℚ) / 1000 - tot.totalCusto)
      if cpm_alvo < cpm_atual then
        if cpm_alvo = 0 then (.zeroDivisionError, s)
        else
          let delta_milhas := pyRound (tot.totalCusto / cpm_alvo * 1000 - (tot.totalMilhas : ℚ))
          (.options cpm_atual delta_custo (some delta_milhas), s)
      else
        (.options cpm_atual delta_custo none, s)

/-- Adjustment kinds accepted by `apply_cpm_adjustment`. -/
inductive TipoAjuste where
  | CUSTO
  | MILHAS
deriving DecidableEq, Repr

/-- Outcome of `apply_cpm_adjustment`. -/
inductive AdjustApplyResult where
  | errValorZero
  | errMilhasInvalidas
  | errCustoNegativo (resultante : ℚ)
  | ok
deriving DecidableEq, Repr

/-- `apply_cpm_adjustment` (db_toolkit.py, lines 1467-1561): validates the
value (non-zero; for MILHAS a positive integer; for CUSTO the resulting
cumulative cost must stay non-negative), writes one `AJUSTE_CPM`
transaction and, in the same commit, an AUTO checkpoint of the
post-adjustment totals.  For MILHAS the value is an integer (`int(valor)`
after `float(valor).is_integer()` holds), so the parameter is split into
a rational `valor` used for CUSTO and validated for integrality. -/
def apply_cpm_adjustment (s : MilesDB) (accId progId : ℕ)
    (tipo_ajuste : TipoAjuste) (valor : ℚ) : AdjustApplyResult × MilesDB :=
  if valor = 0 then (.errValorZero, s)
  else if tipo_ajuste = .MILHAS ∧ (valor < 0 ∨ ¬(valor.den = 1)) then (.errMilhasInvalidas, s)
  else
    let pre := get_cpm_totals s accId progId
    if tipo_ajuste = .CUSTO ∧ pre.totalCusto + valor < 0 then
      (.errCustoNegativo (pre.totalCusto + valor), s)
    else
      let milhasAjuste : ℤ := if tipo_ajuste = .CUSTO then 0 else valor.num
      let custoAjuste : ℚ := if tipo_ajuste = .CUSTO then valor else 0
      let tx : Transaction :=
        { id := s.clock, accountId := accId, createdAt := s.clock,
          modoAquisicao := ModoAquisicao.AJUSTE_CPM,
          origemId := none, destinoId := some progId, companhiaRefId := progId,
          milhasBase := milhasAjuste, bonusPercent := 0,
          milhasCreditadas := milhasAjuste, custoTotal := custoAjuste,
          cpmReal := 0, subscriptionId := none }
      let sTx := { s with transactions := s.transactions ++ [tx], clock := s.clock + 1 }
      let post := get_cpm_totals sTx accId progId
      let chk : CpmCheckpoint :=
        { id := sTx.clock, accountId := accId, programaId := progId,
          totalMilhas := post.totalMilhas, totalCusto := post.totalCusto,
          cpmSnapshot := if 0 < post.totalMilhas then
              pyRound2 (post.totalCusto / (post.totalMilhas : ℚ) * 1000) else 0,
          tipo := ChkTipo.AUTO, periodoReferencia := none, createdAt := sTx.clock }
      (.ok, { sTx with checkpoints := sTx.checkpoints ++ [chk], clock := sTx.clock + 1 })

/-- Outcome of `confirm_delete_transaction`. -/
inductive DeleteResult where
  | notFound
  | deleted (removedCheckpoints : List CpmCheckpoint)
deriving DecidableEq, Repr

/-- Whether a checkpoint is invalidated by deleting transaction `t`: same
account/program and created after the transaction
(`account_id = %s AND programa_id = %s AND created_at > %s`). -/
def invalidatedBy (t : Transaction) (c : CpmCheckpoint) : Bool :=
  c.accountId == t.accountId && c.programaId == t.companhiaRefId &&
    decide (t.createdAt < c.createdAt)

/-- `confirm_delete_transaction` (db_toolkit.py, lines 862-917): re-fetch
the transaction by id (NotFound when absent); in one commit delete every
checkpoint of the same account/program created after the transaction,
then the transaction itself (its batches cascade via ON DELETE CASCADE). -/
def confirm_delete_transaction (s : MilesDB) (txId : ℕ) : DeleteResult × MilesDB :=
  match s.transactions.find? (fun t => t.id == txId) with
  | none => (.notFound, s)
  | some t =>
    let removidos := s.checkpoints.filter (invalidatedBy t)
    (.deleted removidos,
     { s with
        transactions := s.transactions.filter (fun u => u.id != txId),
        batches := s.batches.filter (fun b => b.transactionId != txId),
        checkpoints := s.checkpoints.filter (fun c => !(invalidatedBy t c)) })

/-- The spec's credited-units derivation for a persisted transaction:
`credited_units == floor(base_units * (1 + bonus_percent / 100))`. -/
def creditedInvariant (t : Transaction) : Prop :=
  t.milhasCreditadas = ⌊(t.milhasBase : ℚ) * (1 + t.bonusPercent / 100)⌋

instance : DecidablePred creditedInvariant := fun t => by
  unfold creditedInvariant; infer_instance

/-- Every transaction of `l` either was already present in `s` or
satisfies the credited-units derivation. -/
def preservesCreditedInv (s : MilesDB) (l : List Transaction) : Bool :=
  l.all (fun t => decide (t ∈ s.transactions) || decide (creditedInvariant t))

/-- A monthly-credit call: resolved account/program ids plus the supplied
`milhas_do_mes`. -/
structure CreditCall where
  accId : ℕ
  progId : ℕ
  milhasDoMes : ℤ
deriving DecidableEq, Repr

/-- Sequential application of a batch of `process_monthly_credit` calls
(the `FOR UPDATE` row lock serializes concurrent calls against the same
subscription, so any interleaving is equivalent to some sequential
order). -/
def applyCreditSeq (s : MilesDB) (calls : List CreditCall) : MilesDB :=
  calls.foldl (fun st c => (process_monthly_credit st c.accId c.progId c.milhasDoMes).2) s

/-- Primary-key well-formedness: subscription ids are pairwise distinct. -/
def subIdsNodup (s : MilesDB) : Prop := (s.subscriptions.map (·.id)).Nodup

instance (s : MilesDB) : Decidable (subIdsNodup s) := by
  unfold subIdsNodup; infer_instance

/-- Concrete test fixture: one active subscription (contract: 100
guaranteed miles for R$ 600, fixed CPM 6000). -/
def subEx : Subscription :=
  { id := 10, accountId := 1, programaId := 2, valorTotalCiclo := 600,
    milhasGarantidasCiclo := 100, cpmFixo := 6000, ativo := true,
    dataFim := none, createdAt := 0 }

/-- Concrete test fixture: a store holding only `subEx`. -/
def dbSub : MilesDB := { transactions := [], batches := [], subscriptions := [subEx], checkpoints := [], clock := 1 }

/-- Concrete test fixture: a pre-checkpoint transaction (1000 miles,
cost 30). -/
def txA : Transaction :=
  { id := 0, accountId := 1, createdAt := 0,
    modoAquisicao := ModoAquisicao.COMPRA_SIMPLES,
    origemId := some 2, destinoId := some 2, companhiaRefId := 2,
    milhasBase := 1000, bonusPercent := 0, milhasCreditadas := 1000,
    custoTotal := 30, cpmReal := 30, subscriptionId := none }

/-- Concrete test fixture: a post-checkpoint transaction (500 miles,
cost 10). -/
def txB : Transaction :=
  { id := 2, accountId := 1, createdAt := 2,
    modoAquisicao := ModoAquisicao.COMPRA_SIMPLES,
    origemId := some 2, destinoId := some 2, companhiaRefId := 2,
    milhasBase := 500, bonusPercent := 0, milhasCreditadas := 500,
    custoTotal := 10, cpmReal := 20, subscriptionId := none }

/-- Concrete test fixture: a checkpoint between `txA` and `txB` whose
stored totals equal the cumulative sums as of its creation. -/
def chkAB : CpmCheckpoint :=
  { id := 1, accountId := 1, programaId := 2, totalMilhas := 1000,
    totalCusto := 30, cpmSnapshot := 30, tipo := ChkTipo.MANUAL,
    periodoReferencia := none, createdAt := 1 }

/-- Concrete test fixture: the store holding `txA`, `chkAB`, `txB`. -/
def dbChk : MilesDB :=
  { transactions := [txA, txB], batches := [], subscriptions := [],
    checkpoints := [chkAB], clock := 3 }

/-- Primary-key well-formedness: transaction ids are pairwise distinct. -/
def txIdsNodup (s : MilesDB) : Prop := (s.transactions.map (·.id)).Nodup

instance (s : MilesDB) : Decidable (txIdsNodup s) := by
  unfold txIdsNodup; infer_instance

/-- Concrete test fixture: a batch attached to `txB`. -/
def batchB : TransactionBatch :=
  { transactionId := 2, tipo := TipoLote.PAGO, milhasQtd := 500,
    cpmOrigem := 20, custoParcial := 10, ordem := 1 }

/-- Concrete test fixture: a checkpoint created after `txB` (so deleting
`txB` invalidates it). -/
def chkPost : CpmCheckpoint :=
  { id := 3, accountId := 1, programaId := 2, totalMilhas := 1500,
    totalCusto := 40, cpmSnapshot := 0, tipo := ChkTipo.AUTO,
    periodoReferencia := none, createdAt := 3 }

/-- Concrete test fixture: store for exercising the deletion protocol. -/
def dbDel : MilesDB :=
  { transactions := [txA, txB], batches := [batchB], subscriptions := [],
    checkpoints := [chkAB, chkPost], clock := 4 }

/-- Concrete test fixture: a MONTHLY checkpoint closing January 2026 for
account 1 / program 2. -/
def chkJan : CpmCheckpoint :=
  { id := 0, accountId := 1, programaId := 2, totalMilhas := 1000,
    totalCusto := 30, cpmSnapshot := 30, tipo := ChkTipo.MENSAL,
    periodoReferencia := some (2026, 1), createdAt := 1 }

/-- Concrete test fixture: store with one transaction and the January
2026 monthly checkpoint. -/
def dbMensal : MilesDB :=
  { transactions := [txA], batches := [], subscriptions := [],
    checkpoints := [chkJan], clock := 2 }

/-- Concrete test fixture: a monthly-credit transaction linked to
`subEx` (subscription id 10). -/
def txSub : Transaction :=
  { id := 5, accountId := 1, createdAt := 5,
    modoAquisicao := ModoAquisicao.CLUBE,
    origemId := some 2, destinoId := some 2, companhiaRefId := 2,
    milhasBase := 8, bonusPercent := 0, milhasCreditadas := 8,
    custoTotal := 0, cpmReal := 0, subscriptionId := some 10 }

/-- Concrete test fixture: store for exercising subscription
correction — one active subscription and one transaction linked to it. -/
def dbCorr : MilesDB :=
  { transactions := [txSub], batches := [], subscriptions := [subEx],
    checkpoints := [], clock := 11 }

/-- Concrete test fixture: the spec scenario's simple purchase (10,000
miles for 350, CPM 35). -/
def txP1 : Transaction :=
  { id := 0, accountId := 1, createdAt := 0,
    modoAquisicao := ModoAquisicao.COMPRA_SIMPLES,
    origemId := some 2, destinoId := some 2, companhiaRefId := 2,
    milhasBase := 10000, bonusPercent := 0, milhasCreditadas := 10000,
    custoTotal := 350, cpmReal := 35, subscriptionId := none }

/-- Concrete test fixture: the spec scenario's transfer result (100,000
credited miles for 1100, CPM 11). -/
def txP2 : Transaction :=
  { id := 1, accountId := 1, createdAt := 1,
    modoAquisicao := ModoAquisicao.TRANSFERENCIA,
    origemId := some 3, destinoId := some 2, companhiaRefId := 2,
    milhasBase := 50000, bonusPercent := 100, milhasCreditadas := 100000,
    custoTotal := 1100, cpmReal := 11, subscriptionId := none }

/-- Concrete test fixture: the spec scenario's store — 110,000 miles at
total cost 1450 (CPM 13.18), no checkpoint. -/
def dbAdj : MilesDB :=
  { transactions := [txP1, txP2], batches := [], subscriptions := [],
    checkpoints := [], clock := 2 }

/-! ## Claim theorems -/

/-- C1: for every call to `save_complex_transfer`, if
`lote_organico_qtd + lote_pago_qtd ≠ milhas_base` (or `milhas_base ≤ 0`,
`bonus_percent < 0`, or either lot quantity is negative), the call
returns a validation error and writes nothing — neither a transaction row
nor any batch row; the checks run before any write, so the store is
returned unchanged. -/
theorem save_complex_transfer_validates_before_write
    (s : MilesDB) (accId origId destId : ℕ) (mb : ℤ) (bp : ℚ)
    (lo : ℤ) (lc : ℚ) (lp : ℤ) (lpc : ℚ)
    (h : lo + lp ≠ mb ∨ mb ≤ 0 ∨ bp < 0 ∨ lo < 0 ∨ lp < 0) :
    (save_complex_transfer s accId origId destId mb bp lo lc lp lpc).1.isValidationError = true ∧
    (save_complex_transfer s accId origId destId mb bp lo lc lp lpc).2 = s := by
  unfold save_complex_transfer
  by_cases h1 : mb ≤ 0
  · simp [h1, TransferResult.isValidationError]
  · by_cases h2 : bp < 0
    · simp [h1, h2, TransferResult.isValidationError]
    · by_cases h3 : lo < 0 ∨ lp < 0
      · simp [h1, h2, h3, TransferResult.isValidationError]
      · by_cases h4 : lo + lp ≠ mb
        · simp [h1, h2, h3, h4, TransferResult.isValidationError]
        · exfalso
          push_neg at h4
          rcases h with h | h | h | h | h
          · exact absurd h4 h
          · exact h1 h
          · exact h2 h
          · exact h3 (Or.inl h)
          · exact h3 (Or.inr h)

/-- C1 witness: a concrete call with `2 + 2 ≠ 5` is rejected and leaves
the empty store untouched. -/
theorem save_complex_transfer_validates_before_write_witness :
    (save_complex_transfer emptyDB 1 2 3 5 0 2 1 2 1).1.isValidationError = true ∧
    (save_complex_transfer emptyDB 1 2 3 5 0 2 1 2 1).2 = emptyDB :=
  save_complex_transfer_validates_before_write emptyDB 1 2 3 5 0 2 1 2 1
    (Or.inl (by decide))

/-- C9: every call to `save_simple_transaction` with `custo_total ≤ 0`
(including strictly negative inputs) persists a transaction with mode
`ORGANICO`, stored total cost exactly `0` and realized CPM `0`: the
supplied non-positive cost never enters the ledger. -/
theorem save_simple_transaction_organic_zero_cost
    (s : MilesDB) (accId progId : ℕ) (milhas : ℤ) (custo : ℚ) (bonus : ℚ)
    (h : custo ≤ 0) :
    ((save_simple_transaction s accId progId milhas custo bonus).2.transactions.getLast?.map
      (fun t => (t.modoAquisicao, t.custoTotal, t.cpmReal))) =
      some (ModoAquisicao.ORGANICO, (0 : ℚ), (0 : ℚ)) := by
  unfold save_simple_transaction
  simp only [List.getLast?_concat, Option.map_some, h, if_pos]
  split <;> simp

/-- C9 witness: a concrete call with cost `-5` persists an `ORGANICO`
transaction with stored cost `0` and CPM `0`. -/
theorem save_simple_transaction_organic_zero_cost_witness :
    ((save_simple_transaction emptyDB 1 2 100 (-5) 25).2.transactions.getLast?.map
      (fun t => (t.modoAquisicao, t.custoTotal, t.cpmReal))) =
      some (ModoAquisicao.ORGANICO, (0 : ℚ), (0 : ℚ)) :=
  save_simple_transaction_organic_zero_cost emptyDB 1 2 100 (-5) 25 (by norm_num)

theorem preservesCreditedInv_self (s : MilesDB) :
    preservesCreditedInv s s.transactions = true := by
  simp only [preservesCreditedInv, List.all_eq_true, Bool.or_eq_true, decide_eq_true_eq]
  exact fun t ht => Or.inl ht

theorem preservesCreditedInv_concat (s : MilesDB) (tx : Transaction)
    (h : creditedInvariant tx) :
    preservesCreditedInv s (s.transactions ++ [tx]) = true := by
  simp only [preservesCreditedInv, List.all_eq_true, Bool.or_eq_true, decide_eq_true_eq,
    List.mem_append, List.mem_singleton]
  rintro t (ht | rfl)
  · exact Or.inl ht
  · exact Or.inr h

theorem creditedFromBase_floor {base : ℤ} {bonus : ℚ}
    (hb : 0 ≤ base) (hp : 0 ≤ bonus) :
    creditedFromBase base bonus = ⌊(base : ℚ) * (1 + bonus / 100)⌋ := by
  unfold creditedFromBase
  apply pyInt_of_nonneg
  have h1 : (0 : ℚ) ≤ (base : ℚ) := by exact_mod_cast hb
  have h2 : (0 : ℚ) ≤ 1 + bonus / 100 := by positivity
  exact mul_nonneg h1 h2

theorem creditedInvariant_of (t : Transaction)
    (h : t.milhasCreditadas = ⌊(t.milhasBase : ℚ) * (1 + t.bonusPercent / 100)⌋) :
    creditedInvariant t := h

theorem creditedInvariant_zero_bonus (q : ℤ) :
    q = ⌊(q : ℚ) * (1 + (0 : ℚ) / 100)⌋ := by
  norm_num

/-- C2 counterexample: the claim as stated is false on the code.
`save_simple_transaction` computes credited units with Python `int()`
(truncation toward zero), not `floor`: a call with `milhas = 1` and
`bonus_percent = -150` (no validation rejects a negative bonus) persists
`milhas_creditadas = int(-0.5) = 0`, while
`floor(1 * (1 - 150/100)) = -1`, so the persisted rows do not all satisfy
the floor derivation. -/
theorem credited_floor_counterexample :
    ((save_simple_transaction emptyDB 1 2 1 10 (-150)).2.transactions.all
      (fun t => decide (creditedInvariant t))) = false := by
  have htrunc : creditedFromBase 1 (-150) = 0 := by
    unfold creditedFromBase pyInt
    norm_num
  have hfloor : ⌊((1 : ℤ) : ℚ) * (1 + (-150 : ℚ) / 100)⌋ = -1 := by norm_num
  unfold save_simple_transaction emptyDB
  simp only [List.nil_append, List.all_cons, List.all_nil, Bool.and_true,
    decide_eq_false_iff_not]
  unfold creditedInvariant
  simp only [htrunc, hfloor]
  omega

/-- C2 amended: for every transaction persisted by any of the five
writing operations (simple record, composite transfer, intra-club
registration, monthly credit, CPM adjustment), the stored credited units
equal `floor(base_units * (1 + bonus_percent / 100))` — provided the
supplied base units and bonus percent are nonnegative for the two
unvalidated tools (`save_simple_transaction`,
`register_intra_club_transaction`); with a negative bonus those tools
truncate toward zero instead of flooring.  The composite transfer
validates `milhas_base > 0` and `bonus_percent ≥ 0` itself, and the
monthly-credit and adjustment rows have zero bonus with
`credited = base`, so no hypothesis is needed there. -/
theorem credited_floor_amended
    (s : MilesDB) (accId origId destId progId : ℕ)
    (milhas mb lo lp mdm : ℤ) (custo bonus bp lc lpc valor : ℚ) (ta : TipoAjuste)
    (hm : 0 ≤ milhas) (hb : 0 ≤ bonus) :
    preservesCreditedInv s ((save_simple_transaction s accId progId milhas custo bonus).2.transactions) = true ∧
    preservesCreditedInv s ((save_complex_transfer s accId origId destId mb bp lo lc lp lpc).2.transactions) = true ∧
    preservesCreditedInv s ((register_intra_club_transaction s accId progId milhas custo bonus).2.transactions) = true ∧
    preservesCreditedInv s ((process_monthly_credit s accId progId mdm).2.transactions) = true ∧
    preservesCreditedInv s ((apply_cpm_adjustment s accId progId ta valor).2.transactions) = true := by
  refine ⟨?_, ?_, ?_, ?_, ?_⟩
  · unfold save_simple_transaction
    exact preservesCreditedInv_concat s _
      (creditedInvariant_of _ (creditedFromBase_floor hm hb))
  · unfold save_complex_transfer
    split_ifs with h1 h2 h3 h4 <;>
      first
        | exact preservesCreditedInv_self s
        | exact preservesCreditedInv_concat s _
            (creditedInvariant_of _
              (creditedFromBase_floor (le_of_lt (not_le.mp h1)) (not_lt.mp h2)))
  · unfold register_intra_club_transaction
    cases hfind : findActiveSubscription s accId progId with
    | none => simpa [hfind] using preservesCreditedInv_self s
    | some sub =>
      simpa [hfind] using
        preservesCreditedInv_concat s _
          (creditedInvariant_of _ (creditedFromBase_floor hm hb))
  · unfold process_monthly_credit
    cases hfind : findActiveSubscription s accId progId with
    | none => simpa [hfind] using preservesCreditedInv_self s
    | some sub =>
      simp only [hfind]
      split_ifs with hguard
      · exact preservesCreditedInv_self s
      · exact preservesCreditedInv_concat s _
          (creditedInvariant_of _ (creditedInvariant_zero_bonus _))
  · simp only [apply_cpm_adjustment]
    split_ifs <;>
      first
        | exact preservesCreditedInv_self s
        | (apply preservesCreditedInv_concat
           exact creditedInvariant_of _ (creditedInvariant_zero_bonus _))

/-- C2 amended witness: the five operations applied to the empty store at
concrete nonnegative inputs all persist only floor-derived rows. -/
theorem credited_floor_amended_witness :
    preservesCreditedInv emptyDB ((save_simple_transaction emptyDB 1 2 100 350 25).2.transactions) = true ∧
    preservesCreditedInv emptyDB ((save_complex_transfer emptyDB 1 1 2 10 0 4 10 6 8).2.transactions) = true ∧
    preservesCreditedInv emptyDB ((register_intra_club_transaction emptyDB 1 2 100 350 25).2.transactions) = true ∧
    preservesCreditedInv emptyDB ((process_monthly_credit emptyDB 1 2 0).2.transactions) = true ∧
    preservesCreditedInv emptyDB ((apply_cpm_adjustment emptyDB 1 2 .MILHAS 5).2.transactions) = true :=
  credited_floor_amended emptyDB 1 1 2 2 100 10 4 6 0 350 25 0 10 8 5 .MILHAS
    (by norm_num) (by norm_num)

theorem findActiveSubscription_mem {s : MilesDB} {accId progId : ℕ} {sub : Subscription}
    (h : findActiveSubscription s accId progId = some sub) : sub ∈ s.subscriptions := by
  unfold findActiveSubscription at h
  exact List.mem_of_mem_filter (List.argmax_mem (Option.mem_def.mpr h))

theorem sumCredited_append {s s' : MilesDB} {tx : Transaction} (subId : ℕ)
    (h : s'.transactions = s.transactions ++ [tx]) :
    sumCredited s' subId =
      sumCredited s subId +
        (if tx.subscriptionId == some subId then tx.milhasCreditadas else 0) := by
  unfold sumCredited
  rw [h, List.filter_append, List.map_append, List.sum_append]
  congr 1
  by_cases hp : tx.subscriptionId == some subId <;> simp [List.filter, hp]

theorem monthly_credit_step (s : MilesDB) (c : CreditCall) (sub : Subscription)
    (hids : subIdsNodup s) (hmem : sub ∈ s.subscriptions)
    (hinv : sumCredited s sub.id ≤ sub.milhasGarantidasCiclo) :
    sumCredited (process_monthly_credit s c.accId c.progId c.milhasDoMes).2 sub.id ≤
        sub.milhasGarantidasCiclo ∧
    (process_monthly_credit s c.accId c.progId c.milhasDoMes).2.subscriptions =
        s.subscriptions := by
  unfold process_monthly_credit
  cases hfind : findActiveSubscription s c.accId c.progId with
  | none => exact ⟨hinv, rfl⟩
  | some a =>
    simp only
    split_ifs with hguard
    · exact ⟨hinv, rfl⟩
    · refine ⟨?_, rfl⟩
      push_neg at hguard
      rw [sumCredited_append sub.id rfl]
      by_cases hid : a.id = sub.id
      · have ha : a ∈ s.subscriptions := findActiveSubscription_mem hfind
        have : a = sub :=
          List.inj_on_of_nodup_map hids ha hmem (by simpa using hid)
        subst this
        simp only [hid, beq_self_eq_true, if_pos]
        omega
      · have : ¬(some a.id == some sub.id) = true := by
          simp [hid]
        rw [if_neg this]
        omega

theorem monthly_credit_seq (s : MilesDB) (calls : List CreditCall) (sub : Subscription)
    (hids : subIdsNodup s) (hmem : sub ∈ s.subscriptions)
    (hinv : sumCredited s sub.id ≤ sub.milhasGarantidasCiclo) :
    sumCredited (applyCreditSeq s calls) sub.id ≤ sub.milhasGarantidasCiclo := by
  induction calls generalizing s with
  | nil => exact hinv
  | cons c rest ih =>
    have hstep := monthly_credit_step s c sub hids hmem hinv
    have hsubs := hstep.2
    exact ih _ (by unfold subIdsNodup; rw [hsubs]; exact hids)
      (by rw [hsubs]; exact hmem) hstep.1

/-- C3: the overcredit guard.  (a) Starting from any store in which a
subscription's credited sum does not exceed its contracted units, no
sequence of `process_monthly_credit` calls can push the sum past the
contract total (the `FOR UPDATE` row lock makes concurrent executions
equivalent to a sequence).  (b) Whenever the requested amount (supplied,
or the `contract/12` default) exceeds `contract_units` minus the already
credited sum, the call returns the overcredit-blocked report carrying
requested/remaining/contract/already-credited and writes nothing. -/
theorem monthly_credit_overcredit_guard
    (s : MilesDB) (calls : List CreditCall) (sub : Subscription)
    (accId progId : ℕ) (m : ℤ) (sub' : Subscription)
    (hids : subIdsNodup s) (hmem : sub ∈ s.subscriptions)
    (hinv : sumCredited s sub.id ≤ sub.milhasGarantidasCiclo)
    (hfind : findActiveSubscription s accId progId = some sub')
    (hover : sub'.milhasGarantidasCiclo - sumCredited s sub'.id < requestedAmount sub' m) :
    sumCredited (applyCreditSeq s calls) sub.id ≤ sub.milhasGarantidasCiclo ∧
    process_monthly_credit s accId progId m =
      (CreditResult.blocked (requestedAmount sub' m)
        (sub'.milhasGarantidasCiclo - sumCredited s sub'.id)
        sub'.milhasGarantidasCiclo (sumCredited s sub'.id), s) := by
  refine ⟨monthly_credit_seq s calls sub hids hmem hinv, ?_⟩
  unfold process_monthly_credit
  rw [hfind]
  simp only [if_pos hover]

/-- C3 witness: against a contract of 100 miles with nothing credited, a
manual request of 200 is blocked with no write, and the sequence of one
such call leaves the credited sum within the contract. -/
theorem monthly_credit_overcredit_guard_witness :
    sumCredited (applyCreditSeq dbSub [⟨1, 2, 200⟩]) 10 ≤ 100 ∧
    process_monthly_credit dbSub 1 2 200 = (CreditResult.blocked 200 100 100 0, dbSub) := by
  have h := monthly_credit_overcredit_guard dbSub [⟨1, 2, 200⟩] subEx 1 2 200 subEx
    (by decide) (by decide) (by decide) (by decide) (by decide)
  exact h

/-- C10: (a) for every call to `process_monthly_credit` with a
non-positive `milhas_do_mes` (zero/omitted or strictly negative), the
amount credited is the linear default `floor(contract_units / 12)` rather
than the supplied value — both as the computed request and in the
persisted credit result; (b) a credit flagged manual is only ever
recorded with a strictly positive amount. -/
theorem monthly_credit_default_and_manual_positive
    (s : MilesDB) (accId progId : ℕ) (m : ℤ) (sub : Subscription)
    (hm : m ≤ 0) (hfind : findActiveSubscription s accId progId = some sub)
    (hc : 0 ≤ sub.milhasGarantidasCiclo) :
    requestedAmount sub m = ⌊(sub.milhasGarantidasCiclo : ℚ) / 12⌋ ∧
    (∀ qtd b, (process_monthly_credit s accId progId m).1 = CreditResult.credited qtd b →
      qtd = ⌊(sub.milhasGarantidasCiclo : ℚ) / 12⌋ ∧ b = false) ∧
    (∀ m' qtd, (process_monthly_credit s accId progId m').1 = CreditResult.credited qtd true →
      0 < qtd) := by
  have hreq : requestedAmount sub m = ⌊(sub.milhasGarantidasCiclo : ℚ) / 12⌋ := by
    unfold requestedAmount
    rw [if_neg (by omega)]
    exact pyInt_of_nonneg (by positivity)
  refine ⟨hreq, ?_, ?_⟩
  · intro qtd b h
    unfold process_monthly_credit at h
    rw [hfind] at h
    simp only at h
    split_ifs at h with hguard
    have h' : CreditResult.credited (requestedAmount sub m) (decide (0 < m)) =
        CreditResult.credited qtd b := h
    rw [CreditResult.credited.injEq] at h'
    obtain ⟨h1, h2⟩ := h'
    refine ⟨by rw [← h1]; exact hreq, ?_⟩
    rw [← h2]
    simp only [decide_eq_false_iff_not]
    omega
  · intro m' qtd h
    unfold process_monthly_credit at h
    cases hfind' : findActiveSubscription s accId progId with
    | none => rw [hfind'] at h; cases h
    | some a =>
      rw [hfind'] at h
      simp only at h
      split_ifs at h with hguard
      have h' : CreditResult.credited (requestedAmount a m') (decide (0 < m')) =
          CreditResult.credited qtd true := h
      rw [CreditResult.credited.injEq] at h'
      obtain ⟨h1, h2⟩ := h'
      have hm' : 0 < m' := of_decide_eq_true h2
      rw [← h1]
      unfold requestedAmount
      rw [if_pos hm']
      exact hm'

/-- C10 witness: with a contract of 100 miles and `milhas_do_mes = 0`,
the credited amount is `floor(100/12) = 8`, flagged non-manual. -/
theorem monthly_credit_default_and_manual_positive_witness :
    requestedAmount subEx 0 = 8 ∧
    (process_monthly_credit dbSub 1 2 0).1 = CreditResult.credited 8 false := by
  have h := monthly_credit_default_and_manual_positive dbSub 1 2 0 subEx
    (by decide) (by decide) (by decide)
  have h8 : (⌊((subEx.milhasGarantidasCiclo : ℤ) : ℚ) / 12⌋ : ℤ) = 8 := by
    norm_num [subEx]
  have hreq : requestedAmount subEx 0 = 8 := h.1.trans h8
  refine ⟨hreq, ?_⟩
  unfold process_monthly_credit
  rw [show findActiveSubscription dbSub 1 2 = some subEx from by decide]
  simp only
  split_ifs with hg
  · rw [hreq] at hg
    exact absurd hg (by decide)
  · rw [hreq]
    rfl

theorem sum_map_filter_split {M : Type} [AddCommMonoid M] (f : Transaction → M)
    (p : Transaction → Bool) (c : ℕ) (L : List Transaction) :
    ((L.filter p).map f).sum =
      ((L.filter (fun t => p t && decide (t.createdAt ≤ c))).map f).sum +
      ((L.filter (fun t => p t && decide (c < t.createdAt))).map f).sum := by
  induction L with
  | nil => simp
  | cons a L ih =>
    simp only [List.filter_cons]
    by_cases hp : p a
    · by_cases hle : a.createdAt ≤ c
      · have hlt : ¬ c < a.createdAt := by omega
        simp [hp, hle, hlt, ih]; abel
      · have hlt : c < a.createdAt := by omega
        simp [hp, hle, hlt, ih]; abel
    · simp [hp, ih]

theorem latestCheckpoint_mem {s : MilesDB} {accId progId : ℕ} {c : CpmCheckpoint}
    (h : latestCheckpoint s accId progId = some c) :
    c ∈ s.checkpoints ∧ c.accountId = accId ∧ c.programaId = progId := by
  unfold latestCheckpoint at h
  have hm := List.argmax_mem (Option.mem_def.mpr h)
  have hf := List.mem_filter.mp hm
  refine ⟨hf.1, ?_, ?_⟩ <;>
    · have := hf.2
      simp only [Bool.and_eq_true, beq_iff_eq] at this
      tauto

/-- C4: for every account/program pair and any placement of checkpoints,
the totals computed by `_get_cpm_totals` — last checkpoint base plus the
sum over the pair's transactions created strictly after the checkpoint —
equal the totals obtained by summing units and cost over all of the
pair's transactions from the beginning, provided each of the pair's
checkpoints carries the snapshot it asserts (its stored totals equal the
cumulative sums as of its creation instant, the defining property of a
checkpoint row). -/
theorem get_cpm_totals_eq_full_history
    (s : MilesDB) (accId progId : ℕ)
    (hcoh : ∀ c ∈ s.checkpoints, c.accountId = accId → c.programaId = progId →
      checkpointCoherent s c) :
    (get_cpm_totals s accId progId).totalMilhas = fullMilhas s accId progId ∧
    (get_cpm_totals s accId progId).totalCusto = fullCusto s accId progId := by
  unfold get_cpm_totals fullMilhas fullCusto
  cases hchk : latestCheckpoint s accId progId with
  | none =>
    simp only [hchk, Option.map_none', Option.getD_none, deltaTxs, zero_add]
    exact ⟨trivial, trivial⟩
  | some c =>
    obtain ⟨hc1, hc2, hc3⟩ := latestCheckpoint_mem hchk
    have hco := hcoh c hc1 hc2 hc3
    unfold checkpointCoherent at hco
    rw [hc2, hc3] at hco
    simp only [hchk, Option.map_some', Option.getD_some, deltaTxs]
    constructor
    · rw [hco.1,
        sum_map_filter_split (·.milhasCreditadas) (pairTx accId progId) c.createdAt]
    · rw [hco.2,
        sum_map_filter_split (·.custoTotal) (pairTx accId progId) c.createdAt]

/-- C4 witness: in a store with a pre-checkpoint transaction (1000 miles,
cost 30), a coherent checkpoint, and a post-checkpoint transaction
(500 miles, cost 10), the base+delta totals equal the full-history
totals. -/
theorem get_cpm_totals_eq_full_history_witness :
    (get_cpm_totals dbChk 1 2).totalMilhas = fullMilhas dbChk 1 2 ∧
    (get_cpm_totals dbChk 1 2).totalCusto = fullCusto dbChk 1 2 := by
  apply get_cpm_totals_eq_full_history dbChk 1 2
  intro c hc h1 h2
  have hce : c = chkAB := by
    simpa [dbChk] using hc
  subst hce
  constructor
  · decide
  · show (chkAB.totalCusto : ℚ) = _
    norm_num [dbChk, chkAB, txA, txB, pairTx]

/-- C5: `confirm_delete_transaction` on a valid token removes exactly that
one transaction (its batches cascade with it), removes exactly the
checkpoints of the same account/program created after the transaction,
leaves every other transaction, batch, checkpoint and all subscriptions
unchanged, and reports the removed checkpoints; calling it a second time
with the same token fails NotFound and changes nothing. -/
theorem confirm_delete_spec (s : MilesDB) (txId : ℕ) (t : Transaction)
    (hids : txIdsNodup s)
    (hfind : s.transactions.find? (fun u => u.id == txId) = some t) :
    (confirm_delete_transaction s txId).1 =
      DeleteResult.deleted (s.checkpoints.filter (invalidatedBy t)) ∧
    t ∉ (confirm_delete_transaction s txId).2.transactions ∧
    (∀ u ∈ s.transactions, u ≠ t → u ∈ (confirm_delete_transaction s txId).2.transactions) ∧
    (∀ u ∈ (confirm_delete_transaction s txId).2.transactions, u ∈ s.transactions) ∧
    (∀ b : TransactionBatch,
      b ∈ (confirm_delete_transaction s txId).2.batches ↔
        b ∈ s.batches ∧ b.transactionId ≠ txId) ∧
    (∀ c : CpmCheckpoint,
      c ∈ (confirm_delete_transaction s txId).2.checkpoints ↔
        c ∈ s.checkpoints ∧
          ¬(c.accountId = t.accountId ∧ c.programaId = t.companhiaRefId ∧
            t.createdAt < c.createdAt)) ∧
    (confirm_delete_transaction s txId).2.subscriptions = s.subscriptions ∧
    confirm_delete_transaction (confirm_delete_transaction s txId).2 txId =
      (DeleteResult.notFound, (confirm_delete_transaction s txId).2) := by
  have hid : t.id = txId := by
    have := List.find?_some hfind
    simpa using this
  have hmemt : t ∈ s.transactions := List.mem_of_find?_eq_some hfind
  unfold confirm_delete_transaction
  rw [hfind]
  simp only
  refine ⟨trivial, ?_, ?_, ?_, ?_, ?_, trivial, ?_⟩
  · intro hmem
    have := (List.mem_filter.mp hmem).2
    simp [hid] at this
  · intro u hu hne
    refine List.mem_filter.mpr ⟨hu, ?_⟩
    simp only [bne_iff_ne, ne_eq, decide_eq_true_eq]
    intro heq
    exact hne (List.inj_on_of_nodup_map hids hu hmemt (heq.trans hid.symm))
  · intro u hu
    exact List.mem_of_mem_filter hu
  · intro b
    rw [List.mem_filter]
    simp [bne_iff_ne]
  · intro c
    rw [List.mem_filter]
    refine and_congr_right fun _ => ?_
    unfold invalidatedBy
    simp [and_assoc]
    tauto
  · have hnone :
        (s.transactions.filter (fun u => u.id != txId)).find? (fun u => u.id == txId) = none := by
      rw [List.find?_eq_none]
      intro a ha
      have := (List.mem_filter.mp ha).2
      simpa using this
    rw [hnone]

/-- C5 witness: deleting `txB` (token 2) removes it, and a second call
with the same token fails NotFound without changing the store. -/
theorem confirm_delete_spec_witness :
    txB ∉ (confirm_delete_transaction dbDel 2).2.transactions ∧
    confirm_delete_transaction (confirm_delete_transaction dbDel 2).2 2 =
      (DeleteResult.notFound, (confirm_delete_transaction dbDel 2).2) := by
  have h := confirm_delete_spec dbDel 2 txB (by decide) (by decide)
  exact ⟨h.2.1, h.2.2.2.2.2.2.2⟩

/-- C6: for `confirm_cpm_checkpoint` with kind MENSAL: a missing period
reference is rejected; a period naming a future month (Python tuple
comparison against today's year/month) is rejected; and when a checkpoint
for the same account/program/period already exists the call fails with
the already-closed error.  In each case the store is returned unchanged —
no second checkpoint row is inserted. -/
theorem confirm_cpm_checkpoint_monthly_guards
    (s : MilesDB) (accId progId : ℕ) (today : ℤ × ℤ) :
    confirm_cpm_checkpoint s accId progId ChkTipo.MENSAL none today =
      (ChkResult.errPeriodoObrigatorio, s) ∧
    (∀ ano mes : ℤ, 1 ≤ mes → mes ≤ 12 →
      (today.1 < ano ∨ (ano = today.1 ∧ today.2 < mes)) →
      confirm_cpm_checkpoint s accId progId ChkTipo.MENSAL (some (ano, mes)) today =
        (ChkResult.errMesFuturo, s)) ∧
    (∀ ano mes : ℤ, 1 ≤ mes → mes ≤ 12 →
      ¬(today.1 < ano ∨ (ano = today.1 ∧ today.2 < mes)) →
      hasPeriodCheckpoint s accId progId (ano, mes) = true →
      confirm_cpm_checkpoint s accId progId ChkTipo.MENSAL (some (ano, mes)) today =
        (ChkResult.errJaFechado, s)) := by
  refine ⟨rfl, ?_, ?_⟩
  · intro ano mes hm1 hm2 hfut
    unfold confirm_cpm_checkpoint
    simp only
    rw [if_neg (not_not_intro ⟨hm1, hm2⟩), if_pos hfut]
  · intro ano mes hm1 hm2 hnfut hdup
    unfold confirm_cpm_checkpoint
    simp only
    rw [if_neg (not_not_intro ⟨hm1, hm2⟩), if_neg hnfut, if_pos hdup]

/-- C6 witness: with January 2026 already closed and today = February
2026, a call without a period fails, closing March 2026 fails as a future
month, and re-closing January 2026 fails as already closed — each leaving
the store unchanged. -/
theorem confirm_cpm_checkpoint_monthly_guards_witness :
    confirm_cpm_checkpoint dbMensal 1 2 ChkTipo.MENSAL none (2026, 2) =
      (ChkResult.errPeriodoObrigatorio, dbMensal) ∧
    confirm_cpm_checkpoint dbMensal 1 2 ChkTipo.MENSAL (some (2026, 3)) (2026, 2) =
      (ChkResult.errMesFuturo, dbMensal) ∧
    confirm_cpm_checkpoint dbMensal 1 2 ChkTipo.MENSAL (some (2026, 1)) (2026, 2) =
      (ChkResult.errJaFechado, dbMensal) := by
  have h := confirm_cpm_checkpoint_monthly_guards dbMensal 1 2 (2026, 2)
  refine ⟨h.1, ?_, ?_⟩
  · exact h.2.1 2026 3 (by norm_num) (by norm_num) (by omega)
  · exact h.2.2 2026 1 (by norm_num) (by norm_num) (by omega) (by decide)

/-- C7: `correct_last_subscription` is atomic.  If the INSERT of the
replacement contract fails, the whole database transaction rolls back and
the caller observes the original store — in particular the old contract
is not left deactivated with no replacement.  On success, all three steps
take effect together: the old active contract (when one exists) is
soft-deactivated with its end date set, the replacement contract (id =
the store clock) is inserted active with the corrected magnitudes, and
every transaction previously linked to the old contract is re-linked to
the replacement. -/
theorem correct_last_subscription_atomic
    (s : MilesDB) (accId progId : ℕ) (valor : ℚ) (milhas : ℤ) (fails : Bool)
    (hfresh : ∀ sub ∈ s.subscriptions, sub.id < s.clock) :
    (fails = true →
      correct_last_subscription s accId progId valor milhas fails =
        (CorrectResult.storeFailure, s)) ∧
    (fails = false →
      (correct_last_subscription s accId progId valor milhas fails).1 =
        CorrectResult.ok s.clock ∧
      ((correct_last_subscription s accId progId valor milhas fails).2.subscriptions.any
        (fun x => x.id == s.clock && x.ativo && x.accountId == accId &&
          x.programaId == progId && x.milhasGarantidasCiclo == milhas)) = true ∧
      (∀ o, findActiveSubscription s accId progId = some o →
        ((correct_last_subscription s accId progId valor milhas fails).2.subscriptions.any
          (fun x => x.id == o.id && !x.ativo && x.dataFim.isSome)) = true ∧
        ((correct_last_subscription s accId progId valor milhas fails).2.transactions.all
          (fun t => t.subscriptionId != some o.id)) = true ∧
        (∀ t ∈ s.transactions, t.subscriptionId = some o.id →
          { t with subscriptionId := some s.clock } ∈
            (correct_last_subscription s accId progId valor milhas fails).2.transactions))) := by
  constructor
  · intro hf
    subst hf
    rfl
  · intro hf
    subst hf
    unfold correct_last_subscription
    cases hfind : findActiveSubscription s accId progId with
    | none =>
      simp only [hfind]
      refine ⟨rfl, ?_, ?_⟩
      · apply List.any_eq_true.mpr
        refine ⟨_, List.mem_append_right _ (List.mem_singleton_self _), ?_⟩
        simp
      · intro o ho
        cases ho
    | some o =>
      have hom : o ∈ s.subscriptions := findActiveSubscription_mem hfind
      have hlt : o.id < s.clock := hfresh o hom
      simp only [hfind]
      refine ⟨rfl, ?_, ?_⟩
      · apply List.any_eq_true.mpr
        refine ⟨_, List.mem_append_right _ (List.mem_singleton_self _), ?_⟩
        simp
      · intro o' ho'
        injection ho' with ho'
        subst ho'
        refine ⟨?_, ?_, ?_⟩
        · apply List.any_eq_true.mpr
          refine ⟨{ o with ativo := false, dataFim := some s.clock },
            List.mem_append_left _ (List.mem_map.mpr ⟨o, hom, by simp⟩), by simp⟩
        · apply List.all_eq_true.mpr
          intro t' ht'
          obtain ⟨t, ht, rfl⟩ := List.mem_map.mp ht'
          by_cases hsub : (t.subscriptionId == some o.id) = true
          · simp only [hsub, if_pos]
            simp only [bne_iff_ne, ne_eq, Option.some.injEq]
            omega
          · simp only [hsub, if_neg, Bool.false_eq_true, not_false_eq_true]
            simp only [beq_iff_eq] at hsub
            simp [bne_iff_ne, hsub]
        · intro t ht hts
          apply List.mem_map.mpr
          exact ⟨t, ht, by simp [hts]⟩

/-- C7 witness: on the concrete store, a failing INSERT leaves the store
exactly as it was (rollback), while a successful run re-links the
transaction of the old contract (id 10) to the replacement (id 11). -/
theorem correct_last_subscription_atomic_witness :
    correct_last_subscription dbCorr 1 2 480 12000 true = (CorrectResult.storeFailure, dbCorr) ∧
    ((correct_last_subscription dbCorr 1 2 480 12000 false).2.transactions.all
      (fun t => t.subscriptionId != some 10)) = true ∧
    ({ txSub with subscriptionId := some 11 } ∈
      (correct_last_subscription dbCorr 1 2 480 12000 false).2.transactions) := by
  have hrb := correct_last_subscription_atomic dbCorr 1 2 480 12000 true (by decide)
  have hok := correct_last_subscription_atomic dbCorr 1 2 480 12000 false (by decide)
  have hsteps := (hok.2 rfl).2.2 subEx (by decide)
  exact ⟨hrb.1 rfl, hsteps.2.1, hsteps.2.2 txSub (by decide) (by decide)⟩

/-- C8 counterexample: the claim as stated is false on the code for
`target_cpm = 0`.  On a store with current CPM 26.67 (1500 miles, cost
40), a target of exactly 0 satisfies "target below current, difference at
least 0.01", so the claim requires Options A and B to be returned; the
code instead evaluates `total_custo / cpm_alvo` and raises
`ZeroDivisionError` (surfaced as a sanitized internal error), returning
no option at all (still writing nothing). -/
theorem calculate_cpm_adjustment_zero_target_counterexample :
    calculate_cpm_adjustment dbChk 1 2 0 = (AdjustCalcResult.zeroDivisionError, dbChk) := by
  have hlc : latestCheckpoint dbChk 1 2 = some chkAB := by decide
  have hdt : deltaTxs dbChk 1 2 (some chkAB.createdAt) = [txB] := by decide
  have hts : get_cpm_totals dbChk 1 2 =
      { totalMilhas := 1500, totalCusto := 40, checkpoint := some chkAB,
        deltaCount := 1, deltaMilhas := 500, deltaCusto := 10 } := by
    unfold get_cpm_totals
    rw [hlc]
    simp only [Option.map_some', Option.getD_some]
    rw [hdt]
    norm_num [chkAB, txB]
  have hcpm : cpmAtualOf dbChk 1 2 = 2667 / 100 := by
    unfold cpmAtualOf
    rw [hts]
    norm_num [pyRound2, pyRound]
  unfold calculate_cpm_adjustment
  rw [hts, hcpm]
  simp only [sub_zero, abs_of_nonneg (show (0 : ℚ) ≤ 2667 / 100 by norm_num)]
  norm_num

/-- C8 amended: `calculate_cpm_adjustment` writes nothing in every
branch, and returns: no option at all when the rounded current CPM is
within 0.01 of the target; otherwise — provided the target is non-zero —
Option A with `delta_cost = round(target*units/1000 - cost, 2)` always,
and Option B with `delta_units = round(cost/target*1000 - units)` exactly
when the target is below the rounded current CPM (reported unavailable
when the target is at or above it).  At a target of exactly 0 the Option
B computation raises `ZeroDivisionError` and no option is returned. -/
theorem calculate_cpm_adjustment_spec
    (s : MilesDB) (accId progId : ℕ) (alvo : ℚ) :
    (calculate_cpm_adjustment s accId progId alvo).2 = s ∧
    (0 < (get_cpm_totals s accId progId).totalMilhas →
      |cpmAtualOf s accId progId - alvo| < 1 / 100 →
      (calculate_cpm_adjustment s accId progId alvo).1 =
        AdjustCalcResult.noAdjustNeeded (cpmAtualOf s accId progId)) ∧
    (0 < (get_cpm_totals s accId progId).totalMilhas →
      ¬(|cpmAtualOf s accId progId - alvo| < 1 / 100) →
      alvo ≠ 0 →
      (calculate_cpm_adjustment s accId progId alvo).1 =
        AdjustCalcResult.options (cpmAtualOf s accId progId)
          (pyRound2 (alvo * ((get_cpm_totals s accId progId).totalMilhas : ℚ) / 1000 -
            (get_cpm_totals s accId progId).totalCusto))
          (if alvo < cpmAtualOf s accId progId then
            some (pyRound ((get_cpm_totals s accId progId).totalCusto / alvo * 1000 -
              ((get_cpm_totals s accId progId).totalMilhas : ℚ)))
          else none)) := by
  refine ⟨?_, ?_, ?_⟩
  · simp only [calculate_cpm_adjustment]
    split_ifs <;> rfl
  · intro hm hnear
    unfold calculate_cpm_adjustment
    rw [if_neg (not_le.mpr hm), if_pos hnear]
  · intro hm hnear hz
    unfold calculate_cpm_adjustment
    rw [if_neg (not_le.mpr hm), if_neg hnear]
    by_cases hlt : alvo < cpmAtualOf s accId progId
    · rw [if_pos hlt, if_neg hz, if_pos hlt]
    · rw [if_neg hlt, if_neg hlt]

/-- C8 witness: the spec's own scenario — current totals 110,000 miles /
cost 1450 (rounded CPM 13.18), target 16.00 above current: Option A only,
with `delta_cost = +310.00`, Option B unavailable; and the call leaves
the store unchanged. -/
theorem calculate_cpm_adjustment_spec_witness :
    (calculate_cpm_adjustment dbAdj 1 2 16).2 = dbAdj ∧
    (calculate_cpm_adjustment dbAdj 1 2 16).1 =
      AdjustCalcResult.options (1318 / 100) 310 none := by
  have hlc : latestCheckpoint dbAdj 1 2 = none := by decide
  have hdt : deltaTxs dbAdj 1 2 none = [txP1, txP2] := by decide
  have hts : get_cpm_totals dbAdj 1 2 =
      { totalMilhas := 110000, totalCusto := 1450, checkpoint := none,
        deltaCount := 2, deltaMilhas := 110000, deltaCusto := 1450 } := by
    unfold get_cpm_totals
    rw [hlc]
    simp only [Option.map_none', Option.getD_none]
    rw [hdt]
    norm_num [txP1, txP2]
  have hcpm : cpmAtualOf dbAdj 1 2 = 1318 / 100 := by
    unfold cpmAtualOf
    rw [hts]
    norm_num [pyRound2, pyRound]
  have h := calculate_cpm_adjustment_spec dbAdj 1 2 16
  refine ⟨h.1, ?_⟩
  have h3 := h.2.2 (by rw [hts]; norm_num)
    (by
      rw [hcpm, abs_sub_comm,
        abs_of_nonneg (show (0 : ℚ) ≤ 16 - 1318 / 100 by norm_num)]
      norm_num)
    (by norm_num)
  rw [h3, hts, hcpm]
  have hB : ¬((16 : ℚ) < 1318 / 100) := by norm_num
  rw [if_neg hB]
  norm_num [pyRound2, pyRound]

end GestaoCPM
